import Mathlib

/-!
Shallow embedding of the PropMaster archived utility scripts
(`test_system.py`, `quick_test.py`, `set_secret.py`).

`test_system.py` is the smoke-test runner: a fixed ordered sequence of
seven HTTP probes, each wrapped in `try/except Exception`, recording a
result into the module-level `results` dict via `test_result`, and
finishing with `sys.exit(1)` when `results["failed"] > 0` and
`sys.exit(0)` otherwise.

The network is abstracted as an environment supplying, for each probe,
either a raised exception (with its `str(e)` text) or an HTTP response
(status code, body text, and the outcome of calling `.json()` on it).
Python-level operations used by the probe bodies (`len`, `in`,
subscription, `dict.get`) are modelled as `Except`-valued functions so
that exceptions raised inside a probe's `try` block flow to the same
handler as network exceptions, exactly as in the source.
-/

namespace PropMaster

/-- JSON values, as Python represents decoded JSON: `None`, `bool`,
numbers, strings, lists, and dicts (modelled as association lists with
distinct keys). -/
inductive Json where
  | null : Json
  | bool : Bool → Json
  | num : Int → Json
  | str : String → Json
  | arr : List Json → Json
  | obj : List (String × Json) → Json

mutual

/-- Python `==` on decoded-JSON values (structural equality), as used by
list membership `x in l`. -/
def jsonBeq : Json → Json → Bool
  | .null, .null => true
  | .bool a, .bool b => a == b
  | .num a, .num b => a == b
  | .str a, .str b => a == b
  | .arr a, .arr b => jsonListBeq a b
  | .obj a, .obj b => jsonObjBeq a b
  | _, _ => false

/-- Elementwise `jsonBeq` on lists. -/
def jsonListBeq : List Json → List Json → Bool
  | [], [] => true
  | x :: xs, y :: ys => jsonBeq x y && jsonListBeq xs ys
  | _, _ => false

/-- Pairwise key/value `jsonBeq` on dict entries. -/
def jsonObjBeq : List (String × Json) → List (String × Json) → Bool
  | [], [] => true
  | (k1, v1) :: xs, (k2, v2) :: ys => k1 == k2 && jsonBeq v1 v2 && jsonObjBeq xs ys
  | _, _ => false

end

/-- Python `True`/`False` as rendered by `str()` / f-strings. -/
def pyBool (b : Bool) : String := if b then "True" else "False"

/-- A single ASCII apostrophe, used by Python `repr` of strings. -/
def sq : String := String.singleton (Char.ofNat 39)

mutual

/-- Python `repr()` of a decoded-JSON value (string escaping elided:
keys and values in play contain no quotes). -/
def pyRepr : Json → String
  | .null => "None"
  | .bool b => pyBool b
  | .num n => toString n
  | .str s => sq ++ s ++ sq
  | .arr l => "[" ++ pyReprList l ++ "]"
  | .obj l => "\x7b" ++ pyReprObj l ++ "\x7d"

/-- Comma-separated `pyRepr` of list elements. -/
def pyReprList : List Json → String
  | [] => ""
  | [x] => pyRepr x
  | x :: xs => pyRepr x ++ ", " ++ pyReprList xs

/-- Comma-separated `repr`-style rendering of dict entries. -/
def pyReprObj : List (String × Json) → String
  | [] => ""
  | [(k, v)] => sq ++ k ++ sq ++ ": " ++ pyRepr v
  | (k, v) :: xs => sq ++ k ++ sq ++ ": " ++ pyRepr v ++ ", " ++ pyReprObj xs

end

/-- Python `str()` of a decoded-JSON value, as an f-string renders it. -/
def pyStr : Json → String
  | .str s => s
  | j => pyRepr j

/-- Lookup in a dict modelled as an association list. -/
def objFind (l : List (String × Json)) (k : String) : Option Json :=
  (l.find? (fun p => p.1 == k)).map (·.2)

/-- Python `len(x)`: defined for lists, dicts and strings, raises
`TypeError` otherwise. -/
def pyLen : Json → Except String Nat
  | .arr l => .ok l.length
  | .obj l => .ok l.length
  | .str s => .ok s.length
  | _ => .error "TypeError: object has no len()"

/-- Python `k in x` for a string `k`: key membership for dicts, element
membership for lists, substring test for strings, `TypeError` otherwise. -/
def pyContains (x : Json) (k : String) : Except String Bool :=
  match x with
  | .obj l => .ok (objFind l k).isSome
  | .arr l => .ok (l.any (jsonBeq (.str k)))
  | .str s => .ok (decide (k.toList <:+: s.toList))
  | _ => .error "TypeError: argument is not iterable"

/-- Python `x[k]` for a string key `k`: dict lookup (raising `KeyError`
when absent), `TypeError` on every other type. -/
def pyGetItem (x : Json) (k : String) : Except String Json :=
  match x with
  | .obj l =>
    match objFind l k with
    | some v => .ok v
    | none => .error ("KeyError: " ++ sq ++ k ++ sq)
  | _ => .error "TypeError: object is not subscriptable with str"

/-- Python `x.get(k, default)`: defined only on dicts; every other type
raises `AttributeError` (e.g. when `data["data"]` is a list or number). -/
def pyGetDefault (x : Json) (k : String) (default : Json) : Except String Json :=
  match x with
  | .obj l => .ok ((objFind l k).getD default)
  | _ => .error "AttributeError: object has no attribute get"

/-- Python `x[0]`: head of a list (raising `IndexError` on `[]`), first
character of a string, `KeyError` on a dict, `TypeError` otherwise. -/
def pyIndexZero (x : Json) : Except String Json :=
  match x with
  | .arr (v :: _) => .ok v
  | .arr [] => .error "IndexError: list index out of range"
  | .str s =>
    match s.toList with
    | c :: _ => .ok (.str (String.singleton c))
    | [] => .error "IndexError: string index out of range"
  | .obj _ => .error "KeyError: 0"
  | _ => .error "TypeError: object is not subscriptable"

/-- An HTTP response as the probe bodies observe it: `.status_code`,
`.text`, and the outcome of calling `.json()` (which raises on a body
that is not valid JSON, hence `Except`). -/
structure HttpResponse where
  status : Nat
  text : String
  jsonBody : Except String Json

/-- What one `requests.get`/`requests.post` call yields inside a probe's
`try` block: either a raised exception with its `str(e)` text, or a
response. -/
inductive Outcome where
  | exc (msg : String) : Outcome
  | resp (r : HttpResponse) : Outcome

/-- One entry of `results["tests"]`: the dict
`{"name": ..., "passed": ..., "message": ...}` appended by `test_result`. -/
structure TestResultR where
  name : String
  passed : Bool
  message : String
deriving DecidableEq, Repr

/-- The module-level `results` dict of `test_system.py`:
`{"passed": 0, "failed": 0, "tests": []}`. -/
structure Results where
  passed : Nat
  failed : Nat
  tests : List TestResultR
deriving DecidableEq, Repr

/-- Initial `results` value. -/
def initResults : Results := ⟨0, 0, []⟩

/-- `test_result(name, passed, message)`: appends the result dict to
`results["tests"]` and increments the matching tally counter. -/
def test_result (st : Results) (r : TestResultR) : Results :=
  { passed := if r.passed then st.passed + 1 else st.passed
    failed := if r.passed then st.failed else st.failed + 1
    tests := st.tests ++ [r] }

/-- Run the recorder over a sequence of per-probe results, in order. -/
def runList (rs : List TestResultR) : Results :=
  rs.foldl test_result initResults

/-- Wrap one probe body in its `try/except Exception` block: an exception
from the HTTP call itself, or an exception raised inside the body
(modelled by the body returning `.error`), is recorded as a failed result
whose message is `str(e)`. -/
def wrapProbe (name : String) (body : HttpResponse → Except String (Bool × String))
    (o : Outcome) : TestResultR :=
  match o with
  | .exc e => ⟨name, false, e⟩
  | .resp r =>
    match body r with
    | .ok (p, m) => ⟨name, p, m⟩
    | .error e => ⟨name, false, e⟩

/-- Probe 1, "Website is accessible": `GET FRONTEND_URL`; passes iff
`response.status_code == 200`, message `f"HTTP {response.status_code}"`. -/
def probe1 : Outcome → TestResultR :=
  wrapProbe "Website is accessible"
    (fun r => .ok (r.status == 200, "HTTP " ++ toString r.status))

/-- Probe 2, "Tasks page route exists": `GET FRONTEND_URL/tasks-maintenance`;
same check and message as probe 1. -/
def probe2 : Outcome → TestResultR :=
  wrapProbe "Tasks page route exists"
    (fun r => .ok (r.status == 200, "HTTP " ++ toString r.status))

/-- Boolean substring test, modelling Python `sub in s` on strings. -/
def strContainsB (s sub : String) : Bool :=
  decide (sub.toList <:+: s.toList)

/-- Probe 3, "React app structure present": `GET FRONTEND_URL/index.html`;
passes iff the body text contains both `id="root"` and `.js` — the HTTP
status code is never consulted. -/
def probe3 : Outcome → TestResultR :=
  wrapProbe "React app structure present"
    (fun r =>
      let has_root := strContainsB r.text "id=\"root\""
      let has_js := strContainsB r.text ".js"
      .ok (has_root && has_js,
        "Root div: " ++ pyBool has_root ++ ", JS bundle: " ++ pyBool has_js))

/-- Body of probe 4, "get-mention-data endpoint": on status 200, decode
JSON, require key `"data"`, then count
`len(data["data"].get(k, []))` for the three nested keys. Any Python
exception along the way (`.json()` decode failure, `in` on a scalar,
`.get` on a non-dict, `len` of a scalar) surfaces as `.error`. -/
def probe4body (r : HttpResponse) : Except String (Bool × String) :=
  if r.status == 200 then do
    let data ← r.jsonBody
    let hasData ← pyContains data "data"
    if hasData then do
      let inner ← pyGetItem data "data"
      let props ← pyGetDefault inner "properties" (.arr [])
      let pc ← pyLen props
      let units ← pyGetDefault inner "units" (.arr [])
      let uc ← pyLen units
      let tens ← pyGetDefault inner "tenants" (.arr [])
      let tc ← pyLen tens
      pure (true, toString pc ++ " properties, " ++ toString uc ++ " units, "
        ++ toString tc ++ " tenants")
    else
      pure (false, "Unexpected response format")
  else
    pure (false, "HTTP " ++ toString r.status)

/-- Probe 4 with its `try/except` wrapper. -/
def probe4 : Outcome → TestResultR :=
  wrapProbe "get-mention-data endpoint" probe4body

/-- Body of probe 5, "Fetch tasks from database": on status 200, decode
JSON and report `f"Retrieved {len(tasks)} tasks"`; otherwise fail with
`f"HTTP {status}"`. -/
def probe5body (r : HttpResponse) : Except String (Bool × String) :=
  if r.status == 200 then do
    let tasks ← r.jsonBody
    let n ← pyLen tasks
    pure (true, "Retrieved " ++ toString n ++ " tasks")
  else
    pure (false, "HTTP " ++ toString r.status)

/-- Probe 5 with its `try/except` wrapper. -/
def probe5 : Outcome → TestResultR :=
  wrapProbe "Fetch tasks from database" probe5body

/-- Body of probe 6, "Create task via API": on status 200, decode JSON;
if `"data" in data and "tasks" in data["data"]` (short-circuit `and`),
pass with `f"Task ID: {data["data"]["tasks"][0]["id"]}"`, else fail with
"Task not created". -/
def probe6body (r : HttpResponse) : Except String (Bool × String) :=
  if r.status == 200 then do
    let data ← r.jsonBody
    let c1 ← pyContains data "data"
    let cond ←
      if c1 then do
        let inner ← pyGetItem data "data"
        pyContains inner "tasks"
      else
        pure false
    if cond then do
      let inner ← pyGetItem data "data"
      let tasksJ ← pyGetItem inner "tasks"
      let created ← pyIndexZero tasksJ
      let idv ← pyGetItem created "id"
      pure (true, "Task ID: " ++ pyStr idv)
    else
      pure (false, "Task not created")
  else
    pure (false, "HTTP " ++ toString r.status)

/-- Probe 6 with its `try/except` wrapper. -/
def probe6 : Outcome → TestResultR :=
  wrapProbe "Create task via API" probe6body

/-- Body of probe 7, "Fetch properties for linking": like probe 5 but
reporting `f"Retrieved {len(properties)} properties"`. -/
def probe7body (r : HttpResponse) : Except String (Bool × String) :=
  if r.status == 200 then do
    let properties ← r.jsonBody
    let n ← pyLen properties
    pure (true, "Retrieved " ++ toString n ++ " properties")
  else
    pure (false, "HTTP " ++ toString r.status)

/-- Probe 7 with its `try/except` wrapper. -/
def probe7 : Outcome → TestResultR :=
  wrapProbe "Fetch properties for linking" probe7body

/-- The seven probes of `test_system.py`, in declaration order. -/
def allProbes : List (Outcome → TestResultR) :=
  [probe1, probe2, probe3, probe4, probe5, probe6, probe7]

/-- The per-probe results of one run, given the environment's outcome for
each of the seven HTTP calls (probe `i` consumes `env i`). -/
def probeResults (env : Nat → Outcome) : List TestResultR :=
  [probe1 (env 0), probe2 (env 1), probe3 (env 2), probe4 (env 3),
   probe5 (env 4), probe6 (env 5), probe7 (env 6)]

/-- Final `results` state of a full run of `test_system.py`. -/
def runAll (env : Nat → Outcome) : Results :=
  runList (probeResults env)

/-- The state of `results` after the first `k` probes have completed. -/
def runUpTo (env : Nat → Outcome) (k : Nat) : Results :=
  runList ((probeResults env).take k)

/-- The process exit code of `test_system.py`:
`sys.exit(1)` when `results["failed"] > 0`, else `sys.exit(0)`. -/
def exitCode (env : Nat → Outcome) : Nat :=
  if (runAll env).failed > 0 then 1 else 0

/-- One outbound HTTP request as written in the scripts: method, URL, and
the `timeout=` keyword argument when present (`none` when the call sets
no timeout). -/
structure RequestSpec where
  method : String
  url : String
  timeout : Option Nat
deriving DecidableEq, Repr

/-- Base URL of the deployed frontend in `test_system.py`. -/
def FRONTEND_URL : String := "https://7qz08gud84b6.space.minimax.io"

/-- Base URL of the Supabase project in `test_system.py` and
`quick_test.py`. -/
def SUPABASE_URL : String := "https://rautdxfkuemmlhcrujxq.supabase.co"

/-- The seven requests issued by `test_system.py`, in order; every call
passes `timeout=10`. -/
def testSystemRequests : List RequestSpec :=
  [⟨"GET", FRONTEND_URL, some 10⟩,
   ⟨"GET", FRONTEND_URL ++ "/tasks-maintenance", some 10⟩,
   ⟨"GET", FRONTEND_URL ++ "/index.html", some 10⟩,
   ⟨"POST", SUPABASE_URL ++ "/functions/v1/get-mention-data", some 10⟩,
   ⟨"GET", SUPABASE_URL ++ "/rest/v1/tasks", some 10⟩,
   ⟨"POST", SUPABASE_URL ++ "/functions/v1/create-task", some 10⟩,
   ⟨"GET", SUPABASE_URL ++ "/rest/v1/properties", some 10⟩]

/-- The three requests issued by `quick_test.py`, in order; every call
passes `timeout=15`. -/
def quickTestRequests : List RequestSpec :=
  [⟨"POST", SUPABASE_URL ++ "/functions/v1/get-mention-data", some 15⟩,
   ⟨"GET", SUPABASE_URL ++ "/rest/v1/tasks", some 15⟩,
   ⟨"POST", SUPABASE_URL ++ "/functions/v1/create-task", some 15⟩]

/-- The single request issued by `set_secret.py`: `requests.post(url,
headers=headers, json=data)` with no `timeout=` argument. -/
def setSecretRequest : RequestSpec :=
  ⟨"POST", "https://api.supabase.com/v1/projects/rautdxfkuemmlhcrujxq/secrets", none⟩

/-- Every outbound HTTP request written in the three scripts. -/
def allScriptRequests : List RequestSpec :=
  testSystemRequests ++ quickTestRequests ++ [setSecretRequest]

/-- A script of the repository: its file name, the requests it issues,
and whether its module tail calls `sys.exit` to set a process exit code
(`test_system.py` calls `sys.exit(0)`/`sys.exit(1)`; `quick_test.py` and
`set_secret.py` contain no `sys.exit` call at all). -/
structure Script where
  name : String
  requests : List RequestSpec
  callsSysExit : Bool
deriving DecidableEq, Repr

/-- `test_system.py`. -/
def testSystemScript : Script := ⟨"test_system.py", testSystemRequests, true⟩

/-- `quick_test.py`. -/
def quickTestScript : Script := ⟨"quick_test.py", quickTestRequests, false⟩

/-- `set_secret.py`. -/
def setSecretScript : Script := ⟨"set_secret.py", [setSecretRequest], false⟩

/-- The three scripts of the repository. -/
def allScripts : List Script := [testSystemScript, quickTestScript, setSecretScript]

/-! ## Helper lemmas about the recorder -/

/-- Folding `test_result` over a result sequence appends the sequence to
`tests` and adds the matching filter-lengths to the two counters. -/
theorem foldl_test_result (st : Results) (rs : List TestResultR) :
    (rs.foldl test_result st).tests = st.tests ++ rs ∧
    (rs.foldl test_result st).passed
      = st.passed + (rs.filter (fun r => r.passed)).length ∧
    (rs.foldl test_result st).failed
      = st.failed + (rs.filter (fun r => !r.passed)).length := by
  induction rs generalizing st with
  | nil => simp
  | cons r rs ih =>
    obtain ⟨h1, h2, h3⟩ := ih (test_result st r)
    have hp : (test_result st r).passed = if r.passed then st.passed + 1 else st.passed := rfl
    have hf : (test_result st r).failed = if r.passed then st.failed else st.failed + 1 := rfl
    have htst : (test_result st r).tests = st.tests ++ [r] := rfl
    rw [List.foldl_cons]
    refine ⟨?_, ?_, ?_⟩
    · rw [h1, htst]; simp
    · rw [h2, hp, List.filter_cons]
      cases hr : r.passed <;> simp [hr] <;> omega
    · rw [h3, hf, List.filter_cons]
      cases hr : r.passed <;> simp [hr] <;> omega

/-- `runList` records exactly the given results and tallies them by flag. -/
theorem runList_spec (rs : List TestResultR) :
    (runList rs).tests = rs ∧
    (runList rs).passed = (rs.filter (fun r => r.passed)).length ∧
    (runList rs).failed = (rs.filter (fun r => !r.passed)).length := by
  have h := foldl_test_result initResults rs
  simpa [runList, initResults] using h

/-- The two filter-lengths by a flag and its negation add up to the list
length. -/
theorem filter_length_add (rs : List TestResultR) :
    (rs.filter (fun r => r.passed)).length
      + (rs.filter (fun r => !r.passed)).length = rs.length := by
  induction rs with
  | nil => rfl
  | cons r rs ih => cases hr : r.passed <;> simp [List.filter_cons, hr] <;> omega

/-- A wrapped probe's recorded name is the probe's name, whatever the
outcome of its HTTP call. -/
theorem wrapProbe_name (n : String) (b : HttpResponse → Except String (Bool × String))
    (o : Outcome) : (wrapProbe n b o).name = n := by
  cases o with
  | exc e => rfl
  | resp r =>
    cases h : b r with
    | ok pm =>
      cases pm with
      | mk p m => simp [wrapProbe, h]
    | error e => simp [wrapProbe, h]

/-- The exit code of `test_system.py` is 0 exactly when every recorded
result passed, and 1 exactly when the failed tally is positive. -/
theorem exitCode_iff (env : Nat → Outcome) :
    (exitCode env = 1 ↔ 0 < (runAll env).failed) ∧
    (exitCode env = 0 ↔ ∀ r ∈ (runAll env).tests, r.passed = true) := by
  obtain ⟨ht, _, hf⟩ := runList_spec (probeResults env)
  have hiff : (runAll env).failed = 0 ↔ ∀ r ∈ (runAll env).tests, r.passed = true := by
    rw [show runAll env = runList (probeResults env) from rfl, hf, ht,
      List.length_eq_zero, List.filter_eq_nil_iff]
    constructor
    · intro h r hr
      have := h r hr
      simpa using this
    · intro h r hr
      simp [h r hr]
  constructor
  · unfold exitCode
    by_cases h : 0 < (runAll env).failed
    · simp [h]
    · simp [h]
  · unfold exitCode
    constructor
    · intro hc
      by_cases h : 0 < (runAll env).failed
      · rw [if_pos h] at hc
        exact absurd hc one_ne_zero
      · exact hiff.mp (by omega)
    · intro hall
      have h0 := hiff.mpr hall
      rw [if_neg (by omega)]

/-- A response every probe accepts: status 200, a body holding the React
markers, and a JSON object with the nested shape probe 6 requires. -/
def goodResp : HttpResponse :=
  ⟨200, "<div id=\"root\"></div><script src=\"/assets/index.js\"></script>",
    .ok (.obj [("data", .obj [("tasks", .arr [.obj [("id", .str "abc123")]])])])⟩

/-- An environment under which all seven probes pass. -/
def envAllPass : Nat → Outcome := fun _ => .resp goodResp

/-! ## Claims -/

/-- C1: for the smoke-test runner (`test_system.py`), the process exit
code is 0 if every probe's check evaluates true (every recorded result
passed), and 1 if any probe's check evaluates false or raises;
equivalently, the exit code is 1 iff the final failed count is
positive. -/
theorem C1_exit_code (env : Nat → Outcome) :
    (exitCode env = 1 ↔ 0 < (runAll env).failed) ∧
    (exitCode env = 0 ↔ ∀ r ∈ (runAll env).tests, r.passed = true) ∧
    (exitCode env = 0 ∨ exitCode env = 1) := by
  obtain ⟨h1, h2⟩ := exitCode_iff env
  refine ⟨h1, h2, ?_⟩
  unfold exitCode
  by_cases h : 0 < (runAll env).failed
  · right
    rw [if_pos h]
  · left
    rw [if_neg h]

/-- Witness for C1: under a concrete all-pass environment the exit code
is 0. -/
theorem C1_exit_code_witness : exitCode envAllPass = 0 :=
  (C1_exit_code envAllPass).2.1.mpr (by decide)

/-- C2: at every point of a run (after the first `k` probes have
completed), the recorded tests sequence is exactly one result per probe
executed, the tally's passed plus failed counts equal its length, and
each counter equals the number of recorded results with the matching
flag. -/
theorem C2_tally_invariant (env : Nat → Outcome) (k : Nat) :
    (runUpTo env k).tests = (probeResults env).take k ∧
    (runUpTo env k).passed + (runUpTo env k).failed = (runUpTo env k).tests.length ∧
    (runUpTo env k).passed
      = ((runUpTo env k).tests.filter (fun r => r.passed)).length ∧
    (runUpTo env k).failed
      = ((runUpTo env k).tests.filter (fun r => !r.passed)).length := by
  unfold runUpTo
  obtain ⟨ht, hp, hf⟩ := runList_spec ((probeResults env).take k)
  rw [ht, hp, hf]
  exact ⟨rfl, filter_length_add _, rfl, rfl⟩

/-- C4: no probe failure ever aborts the run: whatever each HTTP call
does (raises or returns any response), all seven probes are executed and
recorded, in declaration order. -/
theorem C4_run_never_aborted (env : Nat → Outcome) :
    (runAll env).tests.map (fun r => r.name) =
      ["Website is accessible", "Tasks page route exists",
       "React app structure present", "get-mention-data endpoint",
       "Fetch tasks from database", "Create task via API",
       "Fetch properties for linking"] := by
  obtain ⟨ht, _, _⟩ := runList_spec (probeResults env)
  rw [show runAll env = runList (probeResults env) from rfl, ht]
  simp [probeResults, probe1, probe2, probe3, probe4, probe5, probe6, probe7,
    wrapProbe_name]

/-- C3 counterexample: Python permits `str(e) = ""` (e.g. an exception
constructed with no arguments), and the handler records that text
verbatim, so a probe whose HTTP call raises such an exception is
recorded with an empty message — refuting the claim's "and is
non-empty". -/
theorem C3_counterexample :
    (probe1 (Outcome.exc "")).passed = false ∧
    (probe1 (Outcome.exc "")).message = "" :=
  ⟨rfl, rfl⟩

/-- C3 (amended): for every probe of the runner whose HTTP call raises
an exception, the exception never propagates: it is caught and converted
into a failed Test result whose message is exactly the exception text
(hence non-empty exactly when that text is). Stated over every entry of
`allProbes` (out-of-range indices default to `probe1`). -/
theorem C3_exception_caught (i : Nat) (e : String) :
    ((allProbes.getD i probe1) (Outcome.exc e)).passed = false ∧
    ((allProbes.getD i probe1) (Outcome.exc e)).message = e := by
  rcases i with _ | _ | _ | _ | _ | _ | _ | i <;> exact ⟨rfl, rfl⟩

/-- C6: probe 5 ("Fetch tasks from database") on an HTTP 200 response
whose JSON body is the one-element list
`[{"id": "abc123", "title": "Fix sink"}]` is recorded as passed with a
message containing "Retrieved 1 tasks". -/
theorem C6_fetch_tasks_one_element :
    (probe5 (Outcome.resp ⟨200, "",
      .ok (.arr [.obj [("id", .str "abc123"), ("title", .str "Fix sink")]])⟩)).passed
        = true ∧
    ∃ a b : String,
      (probe5 (Outcome.resp ⟨200, "",
        .ok (.arr [.obj [("id", .str "abc123"), ("title", .str "Fix sink")]])⟩)).message
          = a ++ "Retrieved 1 tasks" ++ b :=
  ⟨rfl, "", "", rfl⟩

/-- C7: probe 5 on an HTTP 500 response — regardless of body text or
JSON decode outcome — is recorded as failed with message "HTTP 500". -/
theorem C7_fetch_tasks_500 (t : String) (j : Except String Json) :
    probe5 (Outcome.resp ⟨500, t, j⟩)
      = ⟨"Fetch tasks from database", false, "HTTP 500"⟩ := by
  show wrapProbe "Fetch tasks from database" probe5body (Outcome.resp ⟨500, t, j⟩)
      = ⟨"Fetch tasks from database", false, "HTTP 500"⟩
  unfold wrapProbe probe5body
  norm_num
  rfl

/-- C9: probe 3's ("React app structure present") pass/fail decision
ignores the HTTP status code entirely: for every response, whatever its
status, it is recorded as passed iff the body text contains both the
substring `id="root"` and the substring `.js`. -/
theorem C9_react_probe_ignores_status (status : Nat) (t : String)
    (j : Except String Json) :
    (probe3 (Outcome.resp ⟨status, t, j⟩)).passed
      = (strContainsB t "id=\"root\"" && strContainsB t ".js") := rfl

/-- C5 counterexample: the single request of `set_secret.py`
(`requests.post(url, headers=headers, json=data)`) passes no `timeout=`
argument at all, refuting "every outbound HTTP request issued by the
scripts is made with a fixed timeout in the range 10 to 15 seconds". -/
theorem C5_counterexample :
    setSecretRequest ∈ allScriptRequests ∧ setSecretRequest.timeout = none := by
  constructor
  · simp [allScriptRequests]
  · rfl

/-- C5 (amended): every outbound HTTP request issued by the two
smoke-test scripts (`test_system.py` with `timeout=10`, `quick_test.py`
with `timeout=15`) carries a fixed timeout in the range 10 to 15
seconds; the one request of `set_secret.py` sets no timeout. -/
theorem C5_smoke_test_timeouts :
    (∀ r ∈ testSystemRequests ++ quickTestRequests,
      ∃ t, r.timeout = some t ∧ 10 ≤ t ∧ t ≤ 15) ∧
    setSecretRequest.timeout = none := by
  refine ⟨?_, rfl⟩
  intro r h
  simp [testSystemRequests, quickTestRequests] at h
  rcases h with h | h | h | h | h | h | h | h | h | h <;> subst h <;>
    first
      | exact ⟨10, rfl, by omega, by omega⟩
      | exact ⟨15, rfl, by omega, by omega⟩

/-- Witness for C5 (amended): the first request of `test_system.py` has
a timeout in range. -/
theorem C5_smoke_test_timeouts_witness :
    ∃ t, (⟨"GET", FRONTEND_URL, some 10⟩ : RequestSpec).timeout = some t
      ∧ 10 ≤ t ∧ t ≤ 15 :=
  C5_smoke_test_timeouts.1 _ (by simp [testSystemRequests])

/-- C8 counterexample: two of the three scripts — `quick_test.py` and
`set_secret.py` — contain no `sys.exit` call, refuting "exactly one of
the three scripts does not set a process exit code at all". -/
theorem C8_counterexample :
    (allScripts.filter (fun s => !s.callsSysExit)).map (fun s => s.name)
      = ["quick_test.py", "set_secret.py"] ∧
    ((allScripts.filter (fun s => !s.callsSysExit)).length = 2) :=
  ⟨rfl, rfl⟩

/-- C8 (amended): exactly two of the three scripts (`quick_test.py` and
`set_secret.py`) do not set a process exit code at all; the remaining
script, `test_system.py`, exits with code 0 when all its probes pass and
with code 1 otherwise. -/
theorem C8_exit_code_scripts :
    (allScripts.filter (fun s => !s.callsSysExit)).map (fun s => s.name)
      = ["quick_test.py", "set_secret.py"] ∧
    testSystemScript.callsSysExit = true ∧
    ∀ env : Nat → Outcome,
      (exitCode env = 0 ↔ ∀ r ∈ (runAll env).tests, r.passed = true) ∧
      (exitCode env = 1 ↔ 0 < (runAll env).failed) := by
  refine ⟨rfl, rfl, fun env => ?_⟩
  obtain ⟨h1, h2⟩ := exitCode_iff env
  exact ⟨h2, h1⟩

/-- Witness for C8 (amended): under a concrete all-pass environment
`test_system.py` exits with code 0. -/
theorem C8_exit_code_scripts_witness : exitCode envAllPass = 0 :=
  ((C8_exit_code_scripts.2.2 envAllPass).1).mpr (by decide)

/-- C10 counterexample: two HTTP 200 responses whose JSON bodies contain
the key "data" on which probe 4 is nevertheless recorded as failed — one
where the value under "data" is the number 5 (so `.get` raises
`AttributeError`), one where it is an object whose "properties" entry is
the number 5 (so `len` raises `TypeError`). -/
theorem C10_counterexample :
    (probe4 (Outcome.resp ⟨200, "", .ok (.obj [("data", .num 5)])⟩)).passed
      = false ∧
    (probe4 (Outcome.resp ⟨200, "",
      .ok (.obj [("data", .obj [("properties", .num 5)])])⟩)).passed = false :=
  ⟨rfl, rfl⟩

/-- `Except` bind on an `ok` value reduces to the continuation. -/
theorem exceptOkBind {ε α β : Type} (a : α) (f : α → Except ε β) :
    (Except.ok a >>= f : Except ε β) = f a := rfl

/-- The count probe 4 reports for one nested key of `data["data"]`: the
length of the list stored under `k`, or 0 when `k` is absent. -/
def cnt (inner : List (String × Json)) (k : String) : Nat :=
  match objFind inner k with
  | some (Json.arr l) => l.length
  | _ => 0

/-- C10 (amended): probe 4 ("get-mention-data endpoint") is recorded as
passed whenever the response has HTTP status 200 and its JSON body is an
object whose "data" key maps to an object in which each of "properties",
"units" and "tenants", when present, maps to a list; keys among these
that are absent are reported as a count of 0 in the result message
rather than causing a failure. -/
theorem C10_mention_data_pass (t : String) (outer inner : List (String × Json))
    (hd : objFind outer "data" = some (.obj inner))
    (hks : ∀ k ∈ (["properties", "units", "tenants"] : List String),
      ∀ v, objFind inner k = some v → ∃ l, v = Json.arr l) :
    (probe4 (Outcome.resp ⟨200, t, .ok (.obj outer)⟩)).passed = true ∧
    (probe4 (Outcome.resp ⟨200, t, .ok (.obj outer)⟩)).message
      = toString (cnt inner "properties") ++ " properties, "
        ++ toString (cnt inner "units") ++ " units, "
        ++ toString (cnt inner "tenants") ++ " tenants" := by
  have hlen : ∀ k, (∀ v, objFind inner k = some v → ∃ l, v = Json.arr l) →
      pyLen ((objFind inner k).getD (.arr [])) = .ok (cnt inner k) := by
    intro k hk
    cases hfind : objFind inner k with
    | none => simp [cnt, hfind, pyLen]
    | some v =>
      obtain ⟨l, rfl⟩ := hk v hfind
      simp [cnt, hfind, pyLen]
  have h1 : pyContains (Json.obj outer) "data" = .ok true := by
    simp [pyContains, hd]
  have h2 : pyGetItem (Json.obj outer) "data" = .ok (.obj inner) := by
    simp [pyGetItem, hd]
  have hp := hlen "properties" (hks _ (by simp))
  have hu := hlen "units" (hks _ (by simp))
  have htn := hlen "tenants" (hks _ (by simp))
  have hbody : probe4body ⟨200, t, .ok (.obj outer)⟩
      = .ok (true, toString (cnt inner "properties") ++ " properties, "
          ++ toString (cnt inner "units") ++ " units, "
          ++ toString (cnt inner "tenants") ++ " tenants") := by
    unfold probe4body
    simp [h1, h2, pyGetDefault, hp, hu, htn, exceptOkBind]
  constructor <;> simp [probe4, wrapProbe, hbody]

/-- Witness for C10 (amended): a 200 response whose body is
`{"data": {}}` — all three nested keys absent — is recorded as passed. -/
theorem C10_mention_data_pass_witness :
    (probe4 (Outcome.resp ⟨200, "", .ok (.obj [("data", .obj [])])⟩)).passed
      = true :=
  (C10_mention_data_pass "" [("data", .obj [])] [] rfl
    (by intro k hk v hv; simp [objFind] at hv)).1

end PropMaster
